import Mathlib

/-!
Verification development for the `super-dns-lookup` repository.

The TypeScript sources are shallowly embedded as executable Lean
definitions.  Stateful pieces (the round-robin rotation kept in a
`WeakMap`, the in-flight table of the lookup controller) are embedded as
explicit state passing; JavaScript values reaching dynamically typed
positions (resolver errors) are embedded as an inductive `JsValue` type;
methods that can throw are embedded as `Except`-valued functions.

The body of `LookupController#lookup` in
src/lib/lookup-controller/lookup-result.ts and src/unnamed/part_006
throws `Method not implemented.`, so the request pipeline and the
single-flight table exist in the repository only as the spec (§4.9.2,
§5) and the method's docstring; the corresponding definitions are
modelled from the spec and marked as such.
-/

namespace SuperDnsLookup

/-! ## Choice strategy (src/lib/choice-strategy.ts, src/unnamed/part_005)

`RoundRobinChoiceStrategy` keeps, for every array instance passed to
`chooseOne`, a mutable record `{ index : number }` in a `WeakMap` keyed by
the array object.  The embedding passes that per-array record explicitly:
`Option Nat` is the state associated with one array instance (`none` when
the `WeakMap` has no entry for the array yet), and `chooseOne` returns the
chosen element together with the updated record.  A thrown
`EmptyArrayError` becomes the `Except.error` branch carrying the same
payload the constructor stores (`emptyArray`). -/

/-- EmptyArrayError from src/lib/choice-strategy.ts: carries the offending
array in its `emptyArray` field. -/
structure EmptyArrayError (α : Type) where
  emptyArray : List α
deriving Repr

namespace RoundRobinChoiceStrategy

/-- Embedding of `RoundRobinChoiceStrategy#chooseOne` for a single array
instance.  `choice` is the record held by `this.choices` for that array
(`none` = not present).  Returns the chosen element and the index stored
back into the record. -/
def chooseOne {α : Type} (array : List α) (choice : Option Nat) :
    Except (EmptyArrayError α) (α × Nat) :=
  if h : array.length = 0 then
    .error ⟨array⟩
  else
    match choice with
    | none => .ok (array.get ⟨0, Nat.pos_of_ne_zero h⟩, 0)
    | some index =>
      let index' := index + 1
      if h' : index' < array.length then
        .ok (array.get ⟨index', h'⟩, index')
      else
        .ok (array.get ⟨0, Nat.pos_of_ne_zero h⟩, 0)

/-- State of the rotation record after `i` successive calls of `chooseOne`
with the same array instance, starting from an absent record. -/
def recordAfter {α : Type} (array : List α) : Nat → Option Nat
  | 0 => none
  | i + 1 =>
    match chooseOne array (recordAfter array i) with
    | .ok (_, index) => some index
    | .error _ => none

/-- Result of the `i`-th call (counting from 0) of `chooseOne` with the
same array instance. -/
def nthCall {α : Type} (array : List α) (i : Nat) :
    Except (EmptyArrayError α) (α × Nat) :=
  chooseOne array (recordAfter array i)

end RoundRobinChoiceStrategy

/-! ## Failover strategy
(src/lib/failover-strategy/failover-strategy.ts, src/unnamed/part_009)

`UniversalFailoverStrategy` receives the resolver error as `unknown`, so
the embedding models JavaScript runtime values with an inductive type.
`getErrorCode` mirrors the guard
`typeof error === 'object' && error !== null && 'code' in error &&
typeof error.code === 'string'`: only a (non-null) object whose `code`
property holds a string yields a code.  The union result types
`false | { ttlMs }` and `false | { maxExpirationMs }` are embedded as
`Option Nat` (`none` = `false`). -/

/-- JavaScript runtime values as far as the failover strategy inspects
them: `typeof x === 'object'` holds exactly for `null` and `obj`. -/
inductive JsValue : Type
  | null
  | undefined
  | bool (b : Bool)
  | num (n : Int)
  | str (s : String)
  | fn
  | obj (fields : List (String × JsValue))

/-- Property access `fields['code']`: first binding wins, as in a
JavaScript object literal with unique keys. -/
def JsValue.getField : JsValue → String → Option JsValue
  | .obj fields, name => fields.lookup name
  | _, _ => none

/-- Error code `dns.CONNREFUSED` exported by `node:dns` and imported by
the strategy. -/
def CONNREFUSED : String := "ECONNREFUSED"

/-- Error code `dns.NOTFOUND`. -/
def NOTFOUND : String := "ENOTFOUND"

/-- Error code `dns.REFUSED`. -/
def REFUSED : String := "EREFUSED"

/-- Error code `dns.SERVFAIL`. -/
def SERVFAIL : String := "ESERVFAIL"

/-- Error code `dns.TIMEOUT`. -/
def TIMEOUT : String := "ETIMEOUT"

/-- Embedding of the `UniversalFailoverStrategy` instance fields as set by
its constructor. -/
structure UniversalFailoverStrategy where
  cacheErrorCodes : List String
  cacheErrorTtlMs : Nat
  cacheMaxExpirationMs : Nat
  useExpiredCacheOnErrorCodes : List String

namespace UniversalFailoverStrategy

/-- Constructor defaults: `new UniversalFailoverStrategy()` with no
options object (or an empty one). -/
def defaultStrategy : UniversalFailoverStrategy :=
  { cacheErrorCodes := [CONNREFUSED, NOTFOUND, REFUSED, SERVFAIL, TIMEOUT]
    cacheErrorTtlMs := 1000
    cacheMaxExpirationMs := 3600000
    useExpiredCacheOnErrorCodes := [CONNREFUSED, NOTFOUND, REFUSED, SERVFAIL, TIMEOUT] }

/-- Embedding of `UniversalFailoverStrategy#getErrorCode`. -/
def getErrorCode (error : JsValue) : Option String :=
  match error with
  | .obj fields =>
    match (JsValue.obj fields).getField "code" with
    | some (.str s) => some s
    | _ => none
  | _ => none

/-- Embedding of `UniversalFailoverStrategy#cacheResolverFailure`:
`if (code && this.cacheErrorCodes.includes(code))` — the truthiness test
rejects both `undefined` and the empty string. -/
def cacheResolverFailure (s : UniversalFailoverStrategy) (error : JsValue) :
    Option Nat :=
  match getErrorCode error with
  | some code =>
    if code ≠ "" ∧ code ∈ s.cacheErrorCodes then some s.cacheErrorTtlMs
    else none
  | none => none

/-- Embedding of `UniversalFailoverStrategy#useExpiredCache`. -/
def useExpiredCache (s : UniversalFailoverStrategy) (error : JsValue) :
    Option Nat :=
  match getErrorCode error with
  | some code =>
    if code ≠ "" ∧ code ∈ s.useExpiredCacheOnErrorCodes then
      some s.cacheMaxExpirationMs
    else none
  | none => none

end UniversalFailoverStrategy

/-! ## Hosts file service
(src/unnamed/part_008, src/lib/failover-strategy/failover-strategy.ts)

The `UniversalHostsFileService` constructor chooses the default hosts file
path from `os.platform()` when no (truthy) `path` option is given.  The
Windows branch is written as the single-quoted JavaScript literal
`'C:\Windows\System32\drivers\etc\hosts'`; none of `\W`, `\S`, `\d`, `\e`,
`\h` is a recognized escape, so at runtime each backslash is dropped and
the field receives the value below (the unescaped-backslash bug the
docstring of the same constructor contradicts). -/

/-- Runtime value of the constructor's Windows path literal after
JavaScript escape processing: every backslash is swallowed. -/
def winHostsPathRuntime : String := "C:WindowsSystem32driversetchosts"

/-- Canonical Windows hosts path the docstring and the spec document. -/
def winHostsPathDocumented : String := "C:\\Windows\\System32\\drivers\\etc\\hosts"

/-- Error thrown for platforms with no default hosts path. -/
structure UnsupportedPlatform where
  platform : String
deriving DecidableEq, Repr

/-- Embedding of the `UniversalHostsFileService` constructor: the value
the `path` field receives, or the thrown `UnsupportedPlatform`.  `path?`
is the constructor option (`none` = absent); `if (!path)` also treats the
empty string as absent. -/
def universalHostsFileServicePath (path? : Option String)
    (platformName : String) : Except UnsupportedPlatform String :=
  if path?.getD "" = "" then
    match platformName with
    | "darwin" | "linux" => .ok "/etc/hosts"
    | "win32" => .ok winHostsPathRuntime
    | _ => .error ⟨platformName⟩
  else
    .ok (path?.getD "")

/-! ## Lookup controller pipeline

Modelled from the spec: the body of `LookupController#lookup` throws
`Method not implemented.`, so the request pipeline of §4.9.2 is embedded
from the spec's words, with the real embedded
`RoundRobinChoiceStrategy.chooseOne` plugged in as the selection
strategy.  Collaborators the spec puts out of scope (IP recognizer, hosts
snapshot, resolver, cache store, interface configuration) are supplied by
a `LookupEnv` record of oracles, exactly the interfaces the controller
consumes. -/

/-- ResolvedAddress from src/unnamed/part_000: an address and its record
TTL in seconds. -/
structure ResolvedAddress where
  address : String
  ttl : Nat
deriving DecidableEq, Repr

/-- The `order` lookup option. -/
inductive AddrOrder : Type
  | verbatim
  | ipv4first
  | ipv6first
deriving DecidableEq, Repr

/-- Modelled from the spec: normalized lookup options after §4.9.2 step 1
(defaults applied, family aliases translated, `verbatim` folded into
`order`, `hints` split into its three flags). -/
structure NormalizedLookupOptions where
  all : Bool
  family : Nat
  v4mapped : Bool
  addrconfig : Bool
  hintAll : Bool
  order : AddrOrder
deriving Repr

/-- Modelled from the spec: a cache entry (§3) is either a `SUCCESS` list
of resolved addresses or a captured `FAILURE` error. -/
inductive CacheEntryKind : Type
  | success (addrs : List ResolvedAddress)
  | failure (error : JsValue)

/-- Modelled from the spec: cache entry bookkeeping (§3). -/
structure CacheEntry where
  kind : CacheEntryKind
  fetchedAtMs : Nat
  expiresAtMs : Nat

/-- The failover policy interface the controller consumes (§4.7): the
decisions of `cacheResolverFailure` and `useExpiredCache` given an error
and a hostname (`none` = `false`). -/
structure FailoverPolicy where
  cacheResolverFailure : JsValue → String → Option Nat
  useExpiredCache : JsValue → String → Option Nat

/-- Modelled from the spec: the collaborators and ambient state one
`lookup` call reads (§2, §4.9.2): IP recognizer, hosts snapshot, resolver
oracles, locally available interface families, the cache keyed by
`(hostname, family)`, and the failover policy. -/
structure LookupEnv where
  isIPv4 : String → Bool
  isIPv6 : String → Bool
  hosts : String → Option (List String × List String)
  resolve4 : String → Except JsValue (List ResolvedAddress)
  resolve6 : String → Except JsValue (List ResolvedAddress)
  localV4 : Bool
  localV6 : Bool
  cache : String → Nat → Option CacheEntry
  failover : FailoverPolicy

/-- Failures a `lookup` call can surface: a synthetic `NOTFOUND`, a
propagated resolver error, or the `EMPTY_ARRAY` selection error escaping
to the caller (which C6 states never happens). -/
inductive LookupFailure : Type
  | notFound
  | resolver (error : JsValue)
  | emptyArray

/-- A successful reply: a single address (`all = false`) or the whole
shaped list (`all = true`). -/
inductive LookupReply : Type
  | one (address : String)
  | many (addresses : List String)

/-- Modelled from the spec: the synthetic `NODATA` error for an empty
resolver response (§4.2, §4.9.3). -/
def nodataError : JsValue := .obj [("code", .str "ENODATA")]

/-- Modelled from the spec: one resolver call for `(host, fam)` with an
empty success list turned into `NODATA` (§4.9.3). -/
def resolveNow (env : LookupEnv) (host : String) (fam : Nat) :
    Except JsValue (List ResolvedAddress) :=
  match (if fam = 4 then env.resolve4 host else env.resolve6 host) with
  | .ok [] => .error nodataError
  | .ok addrs => .ok addrs
  | .error e => .error e

/-- Outcome of fetching one family: the candidate addresses or the error
to propagate, plus the number of resolver calls issued. -/
structure FetchOut where
  result : Except JsValue (List ResolvedAddress)
  resolverCalls : Nat

/-- Modelled from the spec: the per-family fetch decision tree over the
cache entry (§4.9.2 step 5) — fresh success served from cache, stale
success re-resolved with the expired-cache fallback consulted on error,
fresh failure propagated, stale failure treated as missing. -/
def fetchFamily (env : LookupEnv) (host : String) (fam : Nat) (now : Nat) :
    FetchOut :=
  match env.cache host fam with
  | none => ⟨resolveNow env host fam, 1⟩
  | some entry =>
    match entry.kind with
    | .success addrs =>
      if now < entry.expiresAtMs then ⟨.ok addrs, 0⟩
      else
        match resolveNow env host fam with
        | .ok fresh => ⟨.ok fresh, 1⟩
        | .error err =>
          match env.failover.useExpiredCache err host with
          | some maxExpirationMs =>
            if now - entry.expiresAtMs ≤ maxExpirationMs then ⟨.ok addrs, 1⟩
            else ⟨.error err, 1⟩
          | none => ⟨.error err, 1⟩
    | .failure err =>
      if now < entry.expiresAtMs then ⟨.error err, 0⟩
      else ⟨resolveNow env host fam, 1⟩

/-- Modelled from the spec: stable candidate ordering (§4.9.2 step 7) —
`verbatim` concatenates A before AAAA, `ipv4first` all v4 first,
`ipv6first` the inverse. -/
def combineByOrder (order : AddrOrder) (v4 v6 : List String) : List String :=
  match order with
  | .verbatim => v4 ++ v6
  | .ipv4first => v4 ++ v6
  | .ipv6first => v6 ++ v4

/-- Direct return of an already-final candidate (IP-literal
short-circuit): a single address, shaped only by `all`. -/
def finishDirect (opts : NormalizedLookupOptions) (address : String) :
    Except LookupFailure LookupReply :=
  if opts.all then .ok (.many [address]) else .ok (.one address)

/-- Modelled from the spec: response shaping (§4.9.2 step 7) — combine
the per-family candidates, fail with `NOTFOUND` on an empty final list,
return the list for `all = true`, otherwise select one address through
the embedded `RoundRobinChoiceStrategy.chooseOne` (mapping an escaping
`EmptyArrayError` to the `EMPTY_ARRAY` failure). -/
def shapeResponse (opts : NormalizedLookupOptions) (v4 v6 : List String)
    (rotation : Option Nat) : Except LookupFailure LookupReply :=
  let candidates := combineByOrder opts.order v4 v6
  if candidates = [] then .error .notFound
  else if opts.all then .ok (.many candidates)
  else
    match RoundRobinChoiceStrategy.chooseOne candidates rotation with
    | .ok (address, _) => .ok (.one address)
    | .error _ => .error .emptyArray

/-- Candidate addresses a family's fetch outcome contributes (none when
the family was not required or its fetch failed). -/
def fetchCandidates (o : Option FetchOut) : List String :=
  match o with
  | some ⟨.ok addrs, _⟩ => addrs.map ResolvedAddress.address
  | _ => []

/-- The first propagated per-family error, A before AAAA. -/
def firstFetchError (o4 o6 : Option FetchOut) : Option JsValue :=
  match o4 with
  | some ⟨.error e, _⟩ => some e
  | _ =>
    match o6 with
    | some ⟨.error e, _⟩ => some e
    | _ => none

/-- Modelled from the spec: combining the per-family fetch outcomes
(§4.9.2 step 7).  `o4`/`o6` are the fetch outcomes of the required
families (`none` when the family was not required): candidates of the
successful families are shaped; when no family yields a candidate the
first propagated error (A before AAAA) or a synthetic `NOTFOUND` is
surfaced.  The second component counts resolver calls. -/
def combineFetched (opts : NormalizedLookupOptions) (rotation : Option Nat)
    (o4 o6 : Option FetchOut) : Except LookupFailure LookupReply × Nat :=
  let calls := (o4.elim 0 FetchOut.resolverCalls) +
    (o6.elim 0 FetchOut.resolverCalls)
  let v4 := fetchCandidates o4
  let v6 := fetchCandidates o6
  if v4 = [] ∧ v6 = [] then
    match firstFetchError o4 o6 with
    | some e => (.error (.resolver e), calls)
    | none => (.error .notFound, calls)
  else (shapeResponse opts v4 v6 rotation, calls)

/-- Modelled from the spec: one `LookupController#lookup` call (§4.9.2) —
IP-literal short-circuit with `V4MAPPED` handling, hosts overlay,
required families under `ADDRCONFIG`, per-family fetch, and response
shaping.  `rotation` is the round-robin record associated with the
candidate list instance; the second component counts resolver calls
issued by this call. -/
def lookupModel (env : LookupEnv) (opts : NormalizedLookupOptions)
    (host : String) (now : Nat) (rotation : Option Nat) :
    Except LookupFailure LookupReply × Nat :=
  if env.isIPv4 host then
    if opts.family = 0 ∨ opts.family = 4 then (finishDirect opts host, 0)
    else if opts.family = 6 ∧ opts.v4mapped then
      (finishDirect opts ("::ffff:" ++ host), 0)
    else (.error .notFound, 0)
  else if env.isIPv6 host then
    if opts.family = 0 ∨ opts.family = 6 then (finishDirect opts host, 0)
    else (.error .notFound, 0)
  else
    match env.hosts host with
    | some (v4s, v6s) =>
      let v4 := if opts.family = 6 then [] else v4s
      let v6 := if opts.family = 4 then [] else v6s
      (shapeResponse opts v4 v6 rotation, 0)
    | none =>
      let useV4 := (opts.family = 0 ∨ opts.family = 4) ∧
        (¬ opts.addrconfig = true ∨ env.localV4 = true)
      let useV6 := (opts.family = 0 ∨ opts.family = 6) ∧
        (¬ opts.addrconfig = true ∨ env.localV6 = true)
      if ¬ useV4 ∧ ¬ useV6 then (.error .notFound, 0)
      else
        combineFetched opts rotation
          (if useV4 then some (fetchFamily env host 4 now) else none)
          (if useV6 then some (fetchFamily env host 6 now) else none)

/-- Concrete environment used by witnesses: `"1.2.3.4"` is the only
recognized IPv4 literal, the hosts snapshot is empty, the resolver always
fails with `ENOTFOUND`. -/
def sampleEnv : LookupEnv :=
  { isIPv4 := fun s => s == "1.2.3.4"
    isIPv6 := fun _ => false
    hosts := fun _ => none
    resolve4 := fun _ => .error (.obj [("code", .str "ENOTFOUND")])
    resolve6 := fun _ => .error (.obj [("code", .str "ENOTFOUND")])
    localV4 := true
    localV6 := true
    cache := fun _ _ => none
    failover := ⟨fun _ _ => none, fun _ _ => none⟩ }

/-! ## Single-flight in-flight table

Modelled from the spec: `lookup` is unimplemented in the source, so the
in-flight table (§3, §4.9.2 step 6, §5) is embedded from the spec's words
as a small operational model.  A key is a `(hostname, family)` pair; a
caller arriving for a key joins the outstanding flight when one exists
and otherwise opens a flight and issues the single resolver call; when
the flight settles, every joined caller is delivered the one outcome and
the entry is removed. -/

/-- A single-flight key: `(hostname, family)`. -/
abbrev FlightKey := String × Nat

/-- The outcome a resolution settles with: the resolver's success list or
its error. -/
abbrev FlightOutcome := Except JsValue (List ResolvedAddress)

/-- An event at the in-flight table: a `lookup` caller arriving for a
key, or the outstanding resolution for a key settling with an outcome. -/
inductive FlightEvent : Type
  | arrive (key : FlightKey)
  | settle (key : FlightKey) (outcome : FlightOutcome)

/-- The in-flight table plus the observable history: keys for which a
resolver call was issued (in order), and the outcome delivered to each
awaiting caller (in order). -/
structure FlightState where
  table : List (FlightKey × Nat)
  resolverCalls : List FlightKey
  delivered : List (FlightKey × FlightOutcome)

/-- The empty in-flight table with empty history. -/
def FlightState.initial : FlightState := ⟨[], [], []⟩

/-- Modelled from the spec: one step of the in-flight table.  An arrival
for a key already in flight only joins it (no resolver call); an arrival
for an absent key inserts it with one awaiting caller and issues the
resolver call; a settle removes the entry and delivers the single outcome
to every awaiting caller. -/
def flightStep (st : FlightState) (event : FlightEvent) : FlightState :=
  match event with
  | .arrive key =>
    match st.table.lookup key with
    | some _ =>
      { st with
        table := st.table.map fun p =>
          if p.1 = key then (p.1, p.2 + 1) else p }
    | none =>
      { st with
        table := (key, 1) :: st.table
        resolverCalls := st.resolverCalls ++ [key] }
  | .settle key outcome =>
    match st.table.lookup key with
    | some n =>
      { st with
        table := st.table.filter fun p => p.1 ≠ key
        delivered := st.delivered ++ List.replicate n (key, outcome) }
    | none => st

/-- Run a sequence of events against the fresh in-flight table. -/
def flightRun (events : List FlightEvent) : FlightState :=
  events.foldl flightStep FlightState.initial

end SuperDnsLookup

namespace SuperDnsLookup

open RoundRobinChoiceStrategy

theorem chooseOne_of_ne_nil {α : Type} (array : List α) (choice : Option Nat)
    (h : array ≠ []) :
    ∃ i : Fin array.length, chooseOne array choice = .ok (array.get i, i.val) := by
  have hlen : array.length ≠ 0 := by
    simpa using List.length_pos.mpr h |>.ne'
  unfold chooseOne
  rw [dif_neg hlen]
  cases choice with
  | none => exact ⟨⟨0, Nat.pos_of_ne_zero hlen⟩, rfl⟩
  | some index =>
    by_cases h' : index + 1 < array.length
    · exact ⟨⟨index + 1, h'⟩, by simp [h']⟩
    · exact ⟨⟨0, Nat.pos_of_ne_zero hlen⟩, by simp [h']⟩

theorem recordAfter_eq_mod {α : Type} (array : List α) (h : array ≠ [])
    (i : Nat) : recordAfter array (i + 1) = some (i % array.length) := by
  have hlen : array.length ≠ 0 := by
    simpa using List.length_pos.mpr h |>.ne'
  induction i with
  | zero =>
    simp only [recordAfter, chooseOne, dif_neg hlen, Nat.zero_mod]
  | succ i ih =>
    simp only [recordAfter] at ih ⊢
    rw [ih]
    simp only [chooseOne, dif_neg hlen]
    by_cases h' : i % array.length + 1 < array.length
    · have : (i + 1) % array.length = i % array.length + 1 := by
        rw [← Nat.mod_add_mod, Nat.mod_eq_of_lt h']
      simp [h', this]
    · have hle : array.length ≤ i % array.length + 1 := Nat.le_of_not_lt h'
      have hmod : i % array.length < array.length :=
        Nat.mod_lt _ (Nat.pos_of_ne_zero hlen)
      have heq : i % array.length + 1 = array.length := Nat.le_antisymm hmod hle
      have : (i + 1) % array.length = 0 := by
        rw [← Nat.mod_add_mod, heq, Nat.mod_self]
      simp [h', this]

/-- C1: for every non-empty array instance of `n` elements, repeated calls
of `RoundRobinChoiceStrategy#chooseOne` with that same array instance
return element `i % n` on the `i`-th call (`i = 0, 1, 2, ...`): the first
call returns element 0, each subsequent call the next element, wrapping
back to element 0 after the last one. -/
theorem roundRobin_nthCall_mod {α : Type} (array : List α) (h : array ≠ [])
    (i : Nat) :
    nthCall array i =
      .ok (array.get ⟨i % array.length, Nat.mod_lt _ (List.length_pos.mpr h)⟩,
           i % array.length) := by
  have hlen : array.length ≠ 0 := by
    simpa using List.length_pos.mpr h |>.ne'
  cases i with
  | zero =>
    simp only [nthCall, recordAfter, chooseOne, dif_neg hlen, Nat.zero_mod]
  | succ i =>
    simp only [nthCall, recordAfter_eq_mod array h i]
    simp only [chooseOne, dif_neg hlen]
    by_cases h' : i % array.length + 1 < array.length
    · have hmod : (i + 1) % array.length = i % array.length + 1 := by
        rw [← Nat.mod_add_mod, Nat.mod_eq_of_lt h']
      simp [h', hmod]
    · have hle : array.length ≤ i % array.length + 1 := Nat.le_of_not_lt h'
      have hmodlt : i % array.length < array.length :=
        Nat.mod_lt _ (Nat.pos_of_ne_zero hlen)
      have heq : i % array.length + 1 = array.length := Nat.le_antisymm hmodlt hle
      have hmod : (i + 1) % array.length = 0 := by
        rw [← Nat.mod_add_mod, heq, Nat.mod_self]
      simp [h', hmod]

/-- Witness for C1 at the concrete array `["a", "b", "c"]` and call
index 4: the fifth call returns element `4 % 3 = 1`, namely `"b"`. -/
theorem roundRobin_nthCall_mod_witness :
    nthCall ["a", "b", "c"] 4 = .ok ("b", 1) :=
  roundRobin_nthCall_mod ["a", "b", "c"] (by decide) 4

/-- C5: `RoundRobinChoiceStrategy#chooseOne` throws `EmptyArrayError`
(carrying the offending array) when and only when the array passed to it
has zero elements; for every non-empty array it returns an element of the
array without throwing. -/
theorem chooseOne_empty_iff {α : Type} (array : List α) (choice : Option Nat) :
    (chooseOne array choice = .error ⟨array⟩ ↔ array = []) ∧
    ((∃ i : Fin array.length, chooseOne array choice = .ok (array.get i, i.val)) ↔
      array ≠ []) := by
  by_cases h : array = []
  · subst h
    constructor
    · simp [chooseOne]
    · constructor
      · rintro ⟨i, _⟩
        exact absurd i.isLt (by simp)
      · intro hne
        exact absurd rfl hne
  · obtain ⟨i, hi⟩ := chooseOne_of_ne_nil array choice h
    constructor
    · constructor
      · intro habs
        rw [habs] at hi
        exact Except.noConfusion hi
      · intro habs
        exact absurd habs h
    · exact ⟨fun _ => h, fun _ => ⟨i, hi⟩⟩

end SuperDnsLookup

namespace SuperDnsLookup

open UniversalFailoverStrategy

/-- C2: with the default options, `cacheResolverFailure` returns
`{ ttlMs: 1000 }` for every error whose textual `code` field is one of the
five `node:dns` codes `CONNREFUSED`, `NOTFOUND`, `REFUSED`, `SERVFAIL`,
`TIMEOUT`, and returns `false` for every error whose `code` is a non-empty
string outside that set. -/
theorem cacheResolverFailure_default (error : JsValue) (code : String)
    (hcode : getErrorCode error = some code) :
    (code ∈ [CONNREFUSED, NOTFOUND, REFUSED, SERVFAIL, TIMEOUT] →
      cacheResolverFailure defaultStrategy error = some 1000) ∧
    (code ∉ [CONNREFUSED, NOTFOUND, REFUSED, SERVFAIL, TIMEOUT] → code ≠ "" →
      cacheResolverFailure defaultStrategy error = none) := by
  constructor
  · intro hmem
    have hne : code ≠ "" := by
      intro h
    -- none of the five codes is the empty string
      subst h
      simp [CONNREFUSED, NOTFOUND, REFUSED, SERVFAIL, TIMEOUT] at hmem
    simp [cacheResolverFailure, hcode, defaultStrategy, hne, hmem]
  · intro hmem hne
    simp [cacheResolverFailure, hcode, defaultStrategy, hne, hmem]

/-- Witness for C2: a `TIMEOUT` error is cached for 1000 ms and an
`ENODATA` error is not cached. -/
theorem cacheResolverFailure_default_witness :
    cacheResolverFailure defaultStrategy (.obj [("code", .str "ETIMEOUT")]) =
        some 1000 ∧
      cacheResolverFailure defaultStrategy (.obj [("code", .str "ENODATA")]) =
        none := by
  constructor
  · exact (cacheResolverFailure_default (.obj [("code", .str "ETIMEOUT")])
      "ETIMEOUT" rfl).1 (by simp [CONNREFUSED, NOTFOUND, REFUSED, SERVFAIL, TIMEOUT])
  · exact (cacheResolverFailure_default (.obj [("code", .str "ENODATA")])
      "ENODATA" rfl).2
      (by simp [CONNREFUSED, NOTFOUND, REFUSED, SERVFAIL, TIMEOUT]) (by simp)

/-- C3: with the default options, `useExpiredCache` returns
`{ maxExpirationMs: 3600000 }` (exactly one hour) for every error whose
textual `code` field is one of the five `node:dns` codes, and `false` for
every error whose `code` is a non-empty string outside that set. -/
theorem useExpiredCache_default (error : JsValue) (code : String)
    (hcode : getErrorCode error = some code) :
    (code ∈ [CONNREFUSED, NOTFOUND, REFUSED, SERVFAIL, TIMEOUT] →
      useExpiredCache defaultStrategy error = some 3600000) ∧
    (code ∉ [CONNREFUSED, NOTFOUND, REFUSED, SERVFAIL, TIMEOUT] → code ≠ "" →
      useExpiredCache defaultStrategy error = none) := by
  constructor
  · intro hmem
    have hne : code ≠ "" := by
      intro h
      subst h
      simp [CONNREFUSED, NOTFOUND, REFUSED, SERVFAIL, TIMEOUT] at hmem
    simp [useExpiredCache, hcode, defaultStrategy, hne, hmem]
  · intro hmem hne
    simp [useExpiredCache, hcode, defaultStrategy, hne, hmem]

/-- Witness for C3: a `SERVFAIL` error allows one hour of expired cache
and a `FORMERR` error does not. -/
theorem useExpiredCache_default_witness :
    useExpiredCache defaultStrategy (.obj [("code", .str "ESERVFAIL")]) =
        some 3600000 ∧
      useExpiredCache defaultStrategy (.obj [("code", .str "EFORMERR")]) =
        none := by
  constructor
  · exact (useExpiredCache_default (.obj [("code", .str "ESERVFAIL")])
      "ESERVFAIL" rfl).1 (by simp [CONNREFUSED, NOTFOUND, REFUSED, SERVFAIL, TIMEOUT])
  · exact (useExpiredCache_default (.obj [("code", .str "EFORMERR")])
      "EFORMERR" rfl).2
      (by simp [CONNREFUSED, NOTFOUND, REFUSED, SERVFAIL, TIMEOUT]) (by simp)

/-- C4: for every input error that fails the guard of `getErrorCode`
(not an object, `null`, no `code` property, or a non-string `code`), both
`cacheResolverFailure` and `useExpiredCache` return `false`, whatever
options the strategy was constructed with. -/
theorem failover_false_on_unknown_error (s : UniversalFailoverStrategy)
    (error : JsValue) (hguard : getErrorCode error = none) :
    cacheResolverFailure s error = none ∧ useExpiredCache s error = none := by
  constructor
  · simp [cacheResolverFailure, hguard]
  · simp [useExpiredCache, hguard]

/-- Witness for C4 at `null` (and at an object with a numeric `code`,
via the theorem applied a second time). -/
theorem failover_false_on_unknown_error_witness :
    cacheResolverFailure defaultStrategy .null = none ∧
      useExpiredCache defaultStrategy (.obj [("code", .num 4)]) = none := by
  constructor
  · exact (failover_false_on_unknown_error defaultStrategy .null rfl).1
  · exact (failover_false_on_unknown_error defaultStrategy
      (.obj [("code", .num 4)]) rfl).2

/-- C10: for every `UniversalFailoverStrategy` (whatever the configured
code lists, even ones containing `""`), an error whose `code` field is the
empty string makes both `cacheResolverFailure` and `useExpiredCache`
return `false`: the truthiness guard on the extracted code rejects `""`
before the list membership test. -/
theorem failover_false_on_empty_code (s : UniversalFailoverStrategy)
    (error : JsValue) (hcode : getErrorCode error = some "") :
    cacheResolverFailure s error = none ∧ useExpiredCache s error = none := by
  constructor
  · simp [cacheResolverFailure, hcode]
  · simp [useExpiredCache, hcode]

/-- Witness for C10 with a strategy whose configured lists contain the
empty string and an error whose `code` is the empty string. -/
theorem failover_false_on_empty_code_witness :
    cacheResolverFailure
        ⟨[""], 7, 9, [""]⟩ (.obj [("code", .str "")]) = none ∧
      useExpiredCache
        ⟨[""], 7, 9, [""]⟩ (.obj [("code", .str "")]) = none :=
  failover_false_on_empty_code ⟨[""], 7, 9, [""]⟩ (.obj [("code", .str "")]) rfl

/-- C7 (code bug evaluation): with no explicit path the constructor sets
`/etc/hosts` on `linux` and `darwin` and throws `UnsupportedPlatform`
elsewhere, but on `win32` it sets `C:WindowsSystem32driversetchosts` —
the backslashes of the intended canonical Windows hosts path are lost to
JavaScript escape processing, contradicting the constructor's own
docstring. -/
theorem hostsFileService_default_path_eval :
    universalHostsFileServicePath none "linux" = .ok "/etc/hosts" ∧
    universalHostsFileServicePath none "darwin" = .ok "/etc/hosts" ∧
    universalHostsFileServicePath none "freebsd" = .error ⟨"freebsd"⟩ ∧
    universalHostsFileServicePath none "win32" = .ok winHostsPathRuntime ∧
    winHostsPathRuntime ≠ winHostsPathDocumented := by
  refine ⟨rfl, rfl, rfl, rfl, ?_⟩
  decide

theorem finishDirect_ne_emptyArray (opts : NormalizedLookupOptions)
    (address : String) : finishDirect opts address ≠ .error .emptyArray := by
  unfold finishDirect
  split <;> simp

theorem shapeResponse_ne_emptyArray (opts : NormalizedLookupOptions)
    (v4 v6 : List String) (rotation : Option Nat) :
    shapeResponse opts v4 v6 rotation ≠ .error .emptyArray := by
  unfold shapeResponse
  by_cases h : combineByOrder opts.order v4 v6 = []
  · simp [h]
  · rw [if_neg h]
    by_cases ha : opts.all
    · simp [ha]
    · obtain ⟨i, hi⟩ :=
        chooseOne_of_ne_nil (combineByOrder opts.order v4 v6) rotation h
      simp [ha, hi]

theorem combineFetched_ne_emptyArray (opts : NormalizedLookupOptions)
    (rotation : Option Nat) (o4 o6 : Option FetchOut) :
    (combineFetched opts rotation o4 o6).1 ≠ .error .emptyArray := by
  simp only [combineFetched]
  by_cases h : fetchCandidates o4 = [] ∧ fetchCandidates o6 = []
  · rw [if_pos h]
    rcases hE : firstFetchError o4 o6 with _ | e <;> simp
  · rw [if_neg h]
    exact shapeResponse_ne_emptyArray _ _ _ _

/-- C6: for every call of `lookup` with any hostname, options and ambient
state, the `EMPTY_ARRAY` error of the selection strategy never reaches
the caller: the controller consults the embedded round-robin `chooseOne`
only with a non-empty candidate list, so that error branch is unreachable
at the public interface. -/
theorem lookupModel_never_emptyArray (env : LookupEnv)
    (opts : NormalizedLookupOptions) (host : String) (now : Nat)
    (rotation : Option Nat) :
    (lookupModel env opts host now rotation).1 ≠ .error .emptyArray := by
  unfold lookupModel
  simp only []
  repeat' split
  all_goals
    simp [finishDirect_ne_emptyArray, shapeResponse_ne_emptyArray,
      combineFetched_ne_emptyArray]

/-- C8: for every host the configured IP recognizer classifies as an IPv4
literal, a `lookup` with `family = 6`, the `V4MAPPED` hint set and
`all = false` succeeds with the single address `"::ffff:" ++ host`, with
no resolver call. -/
theorem lookupModel_v4mapped (env : LookupEnv)
    (opts : NormalizedLookupOptions) (host : String) (now : Nat)
    (rotation : Option Nat) (h4 : env.isIPv4 host = true)
    (hfam : opts.family = 6) (hmap : opts.v4mapped = true)
    (hall : opts.all = false) :
    lookupModel env opts host now rotation =
      (.ok (.one ("::ffff:" ++ host)), 0) := by
  unfold lookupModel
  rw [h4]
  simp [hfam, hmap, hall, finishDirect]

/-- Witness for C8: `lookup("1.2.3.4", {family: 6, hints: V4MAPPED})`
against the sample environment returns `"::ffff:1.2.3.4"` with zero
resolver calls. -/
theorem lookupModel_v4mapped_witness :
    lookupModel sampleEnv ⟨false, 6, true, false, false, .verbatim⟩
        "1.2.3.4" 0 none =
      (.ok (.one "::ffff:1.2.3.4"), 0) :=
  lookupModel_v4mapped sampleEnv ⟨false, 6, true, false, false, .verbatim⟩
    "1.2.3.4" 0 none rfl rfl rfl rfl

theorem flightStep_arrive_joined (key : FlightKey) (m : Nat)
    (calls : List FlightKey) (dlv : List (FlightKey × FlightOutcome)) :
    flightStep ⟨[(key, m)], calls, dlv⟩ (.arrive key) =
      ⟨[(key, m + 1)], calls, dlv⟩ := by
  simp [flightStep, List.lookup]

theorem flightRun_arrivals (key : FlightKey) (n m : Nat)
    (calls : List FlightKey) (dlv : List (FlightKey × FlightOutcome)) :
    (List.replicate n (FlightEvent.arrive key)).foldl flightStep
        ⟨[(key, m)], calls, dlv⟩ =
      ⟨[(key, m + n)], calls, dlv⟩ := by
  induction n generalizing m with
  | zero => simp
  | succ n ih =>
    rw [List.replicate_succ, List.foldl_cons, flightStep_arrive_joined, ih]
    have harith : m + 1 + n = m + (n + 1) := by omega
    rw [harith]

/-- C9: for every set of `n ≥ 1` concurrent `lookup` callers arriving for
the same `(hostname, family)` key before the resolution settles, exactly
one resolver call is issued, and once the resolution settles every one of
the `n` callers is delivered the same outcome — the one success result or
the one error the flight settled with. -/
theorem singleFlight_one_call_same_outcome (key : FlightKey) (n : Nat)
    (hn : 0 < n) (outcome : FlightOutcome) :
    flightRun (List.replicate n (.arrive key) ++ [.settle key outcome]) =
      ⟨[], [key], List.replicate n (key, outcome)⟩ := by
  obtain ⟨n, rfl⟩ := Nat.exists_eq_succ_of_ne_zero hn.ne'
  unfold flightRun
  have hfirst : flightStep FlightState.initial (.arrive key) =
      ⟨[(key, 1)], [key], []⟩ := by
    simp [flightStep, FlightState.initial, List.lookup]
  have hA : (List.replicate (n + 1) (FlightEvent.arrive key)).foldl flightStep
      FlightState.initial = ⟨[(key, n + 1)], [key], []⟩ := by
    rw [List.replicate_succ, List.foldl_cons, hfirst, flightRun_arrivals]
    have harith : 1 + n = n + 1 := by omega
    rw [harith]
  rw [List.foldl_append, hA]
  simp [flightStep, List.lookup, List.filter]

/-- Witness for C9: three concurrent callers for `("example.com", 4)`,
settled with one success list — one resolver call, the same outcome
delivered three times. -/
theorem singleFlight_one_call_same_outcome_witness :
    flightRun (List.replicate 3 (.arrive ("example.com", 4)) ++
        [.settle ("example.com", 4) (.ok [⟨"1.2.3.4", 60⟩])]) =
      ⟨[], [("example.com", 4)],
        List.replicate 3 (("example.com", 4), .ok [⟨"1.2.3.4", 60⟩])⟩ :=
  singleFlight_one_call_same_outcome ("example.com", 4) 3 (by decide)
    (.ok [⟨"1.2.3.4", 60⟩])

end SuperDnsLookup
